import Mathlib

/-!
Shallow embedding of the weather-data acquisition and normalization pipeline
of the weather-dashboard repository, covering:

* `src/lib/weatherUtils.ts` (API module part): `locationService.searchLocations`,
  `weatherService.getCurrentWeather`, `weatherService.getForecast`,
  `transformWeatherData`, `transformForecastData` (with its inner `iconMapping`,
  `getWindDirection` and day-bucketing `daysMap` fold),
  `getMockWeatherData`, `getMockLocationSuggestions`;
* `src/hooks/useWeather.ts`: `parseLocation` and `fetchWeatherData`;
* `src/lib/mockData.ts`: `generate24HourForecast` and `mockWeatherData`.

Modelling conventions: JS numbers are `ℚ`; `Math.round x` is `⌊x + 1/2⌋`
(computed with `Rat.floor`); JS `undefined`/absent optional values are
`Option.none`; `Date` values are epoch numbers (`ℤ`); ambient locale/clock
formatting (`toLocaleTimeString`, `toLocaleDateString`, `getHours`,
`toISOString`, `Date.now`) is a `DateEnv` of abstract formatting functions;
successive `Math.random()` draws are a stream `ℕ → ℚ` consumed by an explicit
counter; HTTP effects are returned explicitly as a `List Request` alongside
each result, and the outcome of each remote call is an oracle in `Env`
(`none` models network failure or a non-2xx response, both of which surface
as a thrown `WeatherAPIError` in the source and are handled by the same
`catch` blocks).
-/

/-- Condition tags: the `WeatherCondition` union type of `src/types/weather.ts`
(8 canonical weather categories). -/
inductive WeatherCondition where
  | sunny
  | cloudy
  | rainy
  | snowy
  | windy
  | partlyCloudy
  | thunderstorm
  | fog
deriving DecidableEq

/-- List of all 8 condition tags. -/
def conditionTags : List WeatherCondition :=
  [.sunny, .cloudy, .rainy, .snowy, .windy, .partlyCloudy, .thunderstorm, .fog]

/-- JS `Math.round`: round half toward positive infinity. -/
def jsRound (q : ℚ) : ℤ := (q + 1/2).floor

/-- JS `Math.floor`. -/
def jsFloor (q : ℚ) : ℤ := q.floor

/-! ## Characters, `\d`, `\s`, and the coordinate regular expression

The hook `parseLocation` tests its input against
`^-?\d+(\.\d+)?\s*,\s*-?\d+(\.\d+)?$`.  The matcher below is a deterministic
transcription of that regular expression: determinism is sound here because
after each greedy `\d+` / `\s*` the following mandatory character (`.`, `,`,
or end of input) is never itself a digit or whitespace. -/

/-- JS regex `\d`: the characters `0`–`9` (code points 48–57). -/
def jsDigit (c : Char) : Bool := decide (48 ≤ c.toNat) && decide (c.toNat ≤ 57)

/-- JS regex `\s`: whitespace and line terminators
(`\t \n \v \f \r` space nbsp ogham en/em-family spaces LS PS nnbsp mmsp
ideographic space BOM). -/
def jsSpace (c : Char) : Bool :=
  let n := c.toNat
  n == 9 || n == 10 || n == 11 || n == 12 || n == 13 || n == 32 ||
  n == 160 || n == 5760 || (decide (8192 ≤ n) && decide (n ≤ 8202)) ||
  n == 8232 || n == 8233 || n == 8239 || n == 8287 || n == 12288 || n == 65279

/-- Numeric value of a digit string (most significant digit first). -/
def digitsVal (ds : List Char) : ℕ :=
  ds.foldl (fun acc c => 10 * acc + (c.toNat - 48)) 0

/-- Mathematical value of an unsigned numeral `\d+(\.\d+)?`:
integer part plus fractional part scaled by the fraction length. -/
def posVal (r : List Char) : ℚ :=
  match r.dropWhile jsDigit with
  | c :: fp =>
    if c = '.' then
      (digitsVal (r.takeWhile jsDigit) : ℚ) + (digitsVal fp : ℚ) / (10 : ℚ) ^ fp.length
    else (digitsVal (r.takeWhile jsDigit) : ℚ)
  | [] => (digitsVal (r.takeWhile jsDigit) : ℚ)

/-- Mathematical value of a signed numeral `-?\d+(\.\d+)?`. -/
def numVal (a : List Char) : ℚ :=
  match a with
  | [] => 0
  | c :: r => if c = '-' then -posVal r else posVal (c :: r)

/-- Consume an unsigned numeral `\d+(\.\d+)?` from the front of the input,
returning the consumed prefix and the rest. -/
def eatNumCore (s1 : List Char) : Option (List Char × List Char) :=
  let ds := s1.takeWhile jsDigit
  let s2 := s1.dropWhile jsDigit
  if ds = [] then none
  else
    match s2 with
    | [] => some (ds, [])
    | c :: s3 =>
      if c = '.' then
        let fs := s3.takeWhile jsDigit
        if fs = [] then none else some (ds ++ '.' :: fs, s3.dropWhile jsDigit)
      else some (ds, c :: s3)

/-- Consume a signed numeral `-?\d+(\.\d+)?` from the front of the input. -/
def eatNum (s : List Char) : Option (List Char × List Char) :=
  match s with
  | [] => none
  | c :: s1 =>
    if c = '-' then (eatNumCore s1).map (fun p => ('-' :: p.1, p.2))
    else eatNumCore s

/-- Matcher for the whole coordinate pattern
`^-?\d+(\.\d+)?\s*,\s*-?\d+(\.\d+)?$`. -/
def matchCoordList (s : List Char) : Bool :=
  match eatNum s with
  | none => false
  | some (_, r1) =>
    match r1.dropWhile jsSpace with
    | [] => false
    | c :: r3 =>
      if c = ',' then
        match eatNum (r3.dropWhile jsSpace) with
        | some (_, r5) => r5.isEmpty
        | none => false
      else false

/-- The regex test `/^-?\d+(\.\d+)?\s*,\s*-?\d+(\.\d+)?$/.test location` of
`parseLocation` in `src/hooks/useWeather.ts`. -/
def coordRegexTest (s : String) : Bool := matchCoordList s.data

/-- JS `String.prototype.split(',')`. -/
def splitComma : List Char → List (List Char)
  | [] => [[]]
  | c :: rest =>
    if c = ',' then [] :: splitComma rest
    else
      match splitComma rest with
      | [] => [[c]]
      | p :: ps => (c :: p) :: ps

/-- Whitespace trim on both ends, as JS `Number()` applies before parsing. -/
def jsStrTrim (s : List Char) : List Char :=
  ((s.dropWhile jsSpace).reverse.dropWhile jsSpace).reverse

/-- Digits-and-dot tail of JS numeric parsing: parses `\d+(\.\d*)? | \.\d+`
and applies the already-extracted sign; anything else is `none` (NaN). -/
def jsNumTail (sgn : ℚ) (t1 : List Char) : Option ℚ :=
  let ip := t1.takeWhile jsDigit
  match t1.dropWhile jsDigit with
  | [] => if ip = [] then none else some (sgn * (digitsVal ip : ℚ))
  | c2 :: t3 =>
    if c2 = '.' then
      let fp := t3.takeWhile jsDigit
      if t3.dropWhile jsDigit = [] then
        if ip = [] ∧ fp = [] then none
        else some (sgn * ((digitsVal ip : ℚ) + (digitsVal fp : ℚ) / (10 : ℚ) ^ fp.length))
      else none
    else none

/-- JS `Number(string)` on the decimal forms reachable from the coordinate
branch of `parseLocation` (trimmed optionally-signed decimal literals; the
empty string is 0).  Exponent, hexadecimal and `Infinity` forms cannot occur
in a `split(',')` part of a string accepted by the coordinate pattern and are
not modelled; `none` models NaN. -/
def jsNumber (s : List Char) : Option ℚ :=
  match jsStrTrim s with
  | [] => some 0
  | c :: r =>
    if c = '-' then jsNumTail (-1) r
    else if c = '+' then jsNumTail 1 r
    else jsNumTail 1 (c :: r)

/-- Shape predicate for an unsigned numeral `\d+(\.\d+)?`: a nonempty digit
block, optionally followed by a dot and a nonempty digit block. -/
def PosShape (c : List Char) : Prop :=
  ∃ ds, ds ≠ [] ∧ (∀ x ∈ ds, jsDigit x = true) ∧
    (c = ds ∨ ∃ fs, fs ≠ [] ∧ (∀ x ∈ fs, jsDigit x = true) ∧ c = ds ++ '.' :: fs)

/-- Shape predicate for a signed numeral `-?\d+(\.\d+)?`. -/
def NumShape (c : List Char) : Prop :=
  PosShape c ∨ ∃ c', c = '-' :: c' ∧ PosShape c'

/-! ## Case-insensitive substring test (JS `toLowerCase` / `includes`)

Lowercasing is modelled on the ASCII range, which covers every name in the
built-in mock location list and the inputs of the claims. -/

/-- ASCII lowercase of one character (JS `toLowerCase` restricted to ASCII). -/
def jsCharLower (c : Char) : Char :=
  if 65 ≤ c.toNat ∧ c.toNat ≤ 90 then Char.ofNat (c.toNat + 32) else c

/-- Lowercase a character list. -/
def jsToLower (l : List Char) : List Char := l.map jsCharLower

/-- Whether `needle` is a prefix of `hay` (character-wise). -/
def startsWithL : List Char → List Char → Bool
  | [], _ => true
  | _ :: _, [] => false
  | a :: as, b :: bs => a = b && startsWithL as bs

/-- JS `String.prototype.includes`: `needle` occurs contiguously in `hay`. -/
def containsSub (needle : List Char) : List Char → Bool
  | [] => startsWithL needle []
  | h :: t => startsWithL needle (h :: t) || containsSub needle t

/-! ## Requests, environment, and the location service -/

/-- One HTTP request issued through the `APIClient`
(geocoding search, current weather, or forecast). -/
inductive Request where
  | geocode (q : String) (lim : ℕ)
  | currentW (lat lon : ℚ)
  | forecast (lat lon : ℚ)
deriving DecidableEq

/-- One geocoding result row returned by the `/geo/1.0/direct` endpoint. -/
structure GeoLoc where
  name : String
  country : String
  state : Option String
  lat : ℚ
  lon : ℚ
deriving DecidableEq

/-- `LocationSuggestion` of `src/types/weather.ts`. -/
structure LocationSuggestion where
  id : String
  name : String
  country : String
  state : Option String
  lat : ℚ
  lon : ℚ
deriving DecidableEq

/-- Wire format `OpenWeatherApiResponse.weather[0]` / forecast `weather[0]`:
the first element of the `weather` array, which is the only one the
transforms read. -/
structure WDesc where
  main : String
  description : String
  icon : String
deriving DecidableEq

/-- Wire format `main` block of the current-weather response. -/
structure OWMain where
  temp : ℚ
  feels_like : ℚ
  temp_min : ℚ
  temp_max : ℚ
  pressure : ℚ
  humidity : ℚ
deriving DecidableEq

/-- Wire format `wind` block. -/
structure OWWind where
  speed : ℚ
  deg : Option ℚ
deriving DecidableEq

/-- Wire format `coord` block. -/
structure OWCoord where
  lat : ℚ
  lon : ℚ
deriving DecidableEq

/-- Wire format `sys` block of the current-weather response. -/
structure OWSys where
  country : String
  sunrise : ℤ
  sunset : ℤ
deriving DecidableEq

/-- `OpenWeatherApiResponse` of `src/types/weather.ts` (the fields the
transform reads; `weather0` is `weather[0]`). -/
structure OpenWeatherApiResponse where
  coord : OWCoord
  weather0 : WDesc
  main : OWMain
  visibility : Option ℚ
  wind : OWWind
  dt : ℤ
  sys : OWSys
  name : String
deriving DecidableEq

/-- One 3-hour entry of `ForecastApiResponse.list`
(`weather0` is `weather[0]`). -/
structure ForecastItem where
  dt : ℤ
  main : OWMain
  weather0 : WDesc
  wind : OWWind
  visibility : Option ℚ
  pop : ℚ
deriving DecidableEq

/-- The `city` block of `ForecastApiResponse`. -/
structure FCity where
  name : String
  coord : OWCoord
  country : String
  timezone : ℤ
  sunrise : ℤ
  sunset : ℤ
deriving DecidableEq

/-- `ForecastApiResponse` of `src/types/weather.ts`. -/
structure ForecastApiResponse where
  list : List ForecastItem
  city : FCity
deriving DecidableEq

/-- Ambient external world of one pipeline run: the configured API key
(`API_CONFIG.API_KEY`, empty string when unconfigured) and the outcome
oracles of the three remote endpoints.  `none` models a request that fails
(network error or non-2xx response), which the source surfaces as a thrown
`WeatherAPIError`. -/
structure Env where
  apiKey : String
  geoOutcome : String → Option (List GeoLoc)
  currentOutcome : ℚ → ℚ → Option OpenWeatherApiResponse
  forecastOutcome : ℚ → ℚ → Option ForecastApiResponse

/-- The five-city fixture of `getMockLocationSuggestions`. -/
def mockLocations : List LocationSuggestion :=
  [ { id := "1", name := "New York", country := "US", state := some "NY", lat := 40.7128, lon := -74.0060 },
    { id := "2", name := "London", country := "GB", state := none, lat := 51.5074, lon := -0.1278 },
    { id := "3", name := "Tokyo", country := "JP", state := none, lat := 35.6762, lon := 139.6503 },
    { id := "4", name := "Paris", country := "FR", state := none, lat := 48.8566, lon := 2.3522 },
    { id := "5", name := "Sydney", country := "AU", state := none, lat := -33.8688, lon := 151.2093 } ]

/-- `getMockLocationSuggestions` of `src/lib/weatherUtils.ts` (API module):
filters the fixture by case-insensitive substring match of the query in the
location name. -/
def getMockLocationSuggestions (query : String) : List LocationSuggestion :=
  mockLocations.filter (fun l => containsSub (jsToLower query.data) (jsToLower l.name.data))

/-- `locationService.searchLocations`: empty (all-whitespace) queries return
`[]` without a request (`!query.trim()`); otherwise one geocoding request is
issued; on success the rows are mapped to suggestions with an id derived from
lat/lon/index, and on failure the `catch` returns the mock suggestions. -/
def searchLocations (env : Env) (query : String) (lim : ℕ) :
    List LocationSuggestion × List Request :=
  if query.data.all jsSpace then ([], [])
  else
    match env.geoOutcome query with
    | some results =>
      (results.enum.map (fun p =>
        { id := toString p.2.lat ++ "-" ++ toString p.2.lon ++ "-" ++ toString p.1
          name := p.2.name
          country := p.2.country
          state := p.2.state
          lat := p.2.lat
          lon := p.2.lon }), [Request.geocode query lim])
    | none => (getMockLocationSuggestions query, [Request.geocode query lim])

/-- Coordinates produced by `parseLocation`; `none` components model
NaN/`undefined` (both falsy where the hook tests them). -/
structure Coords where
  lat : Option ℚ
  lon : Option ℚ
deriving DecidableEq

/-- `parseLocation` of `src/hooks/useWeather.ts`: empty input is `null`;
input matching the coordinate pattern is split on `,` and `Number`-parsed
with no request; anything else is geocoded with `limit` 1, the first result
(if any) supplying the coordinates. -/
def parseLocation (env : Env) (location : String) : Option Coords × List Request :=
  if location = "" then (none, [])
  else if coordRegexTest location then
    let nums := (splitComma location.data).map jsNumber
    (some { lat := nums.getD 0 none, lon := nums.getD 1 none }, [])
  else
    match searchLocations env location 1 with
    | (r :: _, reqs) => (some { lat := some r.lat, lon := some r.lon }, reqs)
    | ([], reqs) => (none, reqs)

/-! ## Icon mapping and wind direction -/

/-- The fixed 18-entry `iconMapping` table shared by `transformWeatherData`
and `transformForecastData`. -/
def iconTable : List (String × WeatherCondition) :=
  [ ("01d", .sunny), ("01n", .sunny),
    ("02d", .partlyCloudy), ("02n", .partlyCloudy),
    ("03d", .cloudy), ("03n", .cloudy),
    ("04d", .cloudy), ("04n", .cloudy),
    ("09d", .rainy), ("09n", .rainy),
    ("10d", .rainy), ("10n", .rainy),
    ("11d", .thunderstorm), ("11n", .thunderstorm),
    ("13d", .snowy), ("13n", .snowy),
    ("50d", .fog), ("50n", .fog) ]

/-- `iconMapping[code] || 'sunny'`: table lookup with `sunny` as the default
for codes outside the table. -/
def iconMap (code : String) : WeatherCondition :=
  (iconTable.lookup code).getD .sunny

/-- The 16-entry compass table of `getWindDirection`. -/
def windDirections : List String :=
  ["N", "NNE", "NE", "ENE", "E", "ESE", "SE", "SSE",
   "S", "SSW", "SW", "WSW", "W", "WNW", "NW", "NNW"]

/-- `getWindDirection` of `transformWeatherData`:
`directions[Math.round(degrees / 22.5) % 16]`.  JS `%` truncates toward zero,
and a negative index reads `undefined` out of the array (`none` here). -/
def getWindDirection (degrees : ℚ) : Option String :=
  let index : ℤ := (jsRound (degrees / 22.5)).tmod 16
  if index < 0 then none else windDirections.get? index.toNat

/-! ## Normalized weather model (`src/types/weather.ts`) -/

/-- `CurrentWeatherData`.  `windDirection` is `Option` because the source can
store `undefined` there (out-of-range compass index); `timestamp` is the
epoch of the reading when set. -/
structure CurrentWeatherData where
  temperature : ℚ
  condition : String
  description : String
  icon : WeatherCondition
  feelsLike : ℚ
  humidity : ℚ
  windSpeed : ℚ
  windDirection : Option String
  pressure : ℚ
  visibility : ℚ
  uvIndex : ℚ
  sunrise : String
  sunset : String
  dewPoint : ℚ
  timestamp : Option ℤ
deriving DecidableEq

/-- `HourlyWeatherData`.  `icon` is `Option` because the mock generator can
index outside its pattern array when a random draw is out of range. -/
structure HourlyWeatherData where
  time : String
  temperature : ℚ
  icon : Option WeatherCondition
  precipitation : ℚ
  humidity : ℚ
  pressure : ℚ
  windSpeed : Option ℚ
  feelsLike : Option ℚ
deriving DecidableEq

/-- `DailyWeatherData`. -/
structure DailyWeatherData where
  day : String
  date : Option String
  high : ℚ
  low : ℚ
  icon : WeatherCondition
  precipitation : ℚ
  humidity : Option ℚ
  windSpeed : Option ℚ
  description : Option String
deriving DecidableEq

/-- `LocationData` (the fields this pipeline writes). -/
structure LocationData where
  name : String
  country : Option String
  lat : Option ℚ
  lon : Option ℚ
  timezone : Option String
deriving DecidableEq

/-- `WeatherData`: the normalized object the rendering layer consumes. -/
structure WeatherData where
  current : CurrentWeatherData
  hourly : List HourlyWeatherData
  daily : List DailyWeatherData
  location : Option LocationData
  lastUpdated : Option String
deriving DecidableEq

/-- Ambient clock and locale formatting of one run: `timeFmt` models
`new Date(epochSeconds*1000).toLocaleTimeString(...)`, `dayOf` models
`new Date(epochSeconds*1000).toLocaleDateString(undefined, weekday short)`,
`isoOf` models `toISOString`, `hourOf` models `getHours`, `nowHour` is
`new Date(Date.now()).getHours()`, and `nowIso` is
`new Date().toISOString()`. -/
structure DateEnv where
  timeFmt : ℤ → String
  dayOf : ℤ → String
  isoOf : ℤ → String
  hourOf : ℤ → ℕ
  nowHour : ℕ
  nowIso : String

/-! ## Current-weather transform -/

/-- `transformWeatherData` of the API module: maps the external
current-weather payload into `WeatherData` (icon-table mapping, wind compass
bucketing, visibility meters with zero/absent falling back to 10, epoch
sunrise/sunset through the locale formatter, UV index and dew point fixed at
0, empty hourly/daily). -/
def transformWeatherData (denv : DateEnv) (apiData : OpenWeatherApiResponse) : WeatherData :=
  { location := some
      { name := apiData.name
        country := some apiData.sys.country
        lat := some apiData.coord.lat
        lon := some apiData.coord.lon
        timezone := none }
    current :=
      { temperature := (jsRound apiData.main.temp : ℚ)
        feelsLike := (jsRound apiData.main.feels_like : ℚ)
        condition := apiData.weather0.main
        description := apiData.weather0.description
        icon := iconMap apiData.weather0.icon
        humidity := apiData.main.humidity
        windSpeed := apiData.wind.speed
        windDirection := getWindDirection (apiData.wind.deg.getD 0)
        pressure := apiData.main.pressure
        visibility :=
          match apiData.visibility with
          | some v => if v = 0 then 10 else v / 1000
          | none => 10
        uvIndex := 0
        sunrise := denv.timeFmt apiData.sys.sunrise
        sunset := denv.timeFmt apiData.sys.sunset
        dewPoint := 0
        timestamp := some apiData.dt }
    hourly := []
    daily := []
    lastUpdated := none }

/-! ## Forecast transform: hourly slice and daily aggregation -/

/-- One hourly entry of the forecast transform: entries whose local clock
hour equals the current hour are labelled `"Now"`, `pop` is scaled to an
integer percent. -/
def hourlyOfItem (denv : DateEnv) (item : ForecastItem) : HourlyWeatherData :=
  { time := if denv.hourOf item.dt = denv.nowHour then "Now" else denv.timeFmt item.dt
    temperature := (jsRound item.main.temp : ℚ)
    icon := some (iconMap item.weather0.icon)
    precipitation := (jsRound (item.pop * 100) : ℚ)
    humidity := item.main.humidity
    pressure := item.main.pressure
    windSpeed := some item.wind.speed
    feelsLike := some (jsRound item.main.feels_like : ℚ) }

/-- Initial daily bucket created from the first entry of a day
(the `if (!daysMap[day])` branch). -/
def initDay (denv : DateEnv) (day : String) (item : ForecastItem) : DailyWeatherData :=
  { day := day
    high := item.main.temp_max
    low := item.main.temp_min
    icon := iconMap item.weather0.icon
    precipitation := (jsRound (item.pop * 100) : ℚ)
    humidity := some item.main.humidity
    windSpeed := some item.wind.speed
    description := some item.weather0.description
    date := some (denv.isoOf item.dt) }

/-- Merge of a further same-day entry into an existing bucket (the `else`
branch): `high`/`low` accumulate max/min of `temp_max`/`temp_min`
unconditionally, and icon/description/precipitation are overwritten when the
entry's raw `pop` (a 0–1 fraction) exceeds the stored `precipitation` (an
integer percent) — exactly the comparison
`(item.pop || 0) > (daysMap[day].precipitation || 0)` of the source. -/
def mergeDay (item : ForecastItem) (v : DailyWeatherData) : DailyWeatherData :=
  let v1 := { v with high := max v.high item.main.temp_max
                     low := min v.low item.main.temp_min }
  if item.pop > v.precipitation then
    { v1 with icon := iconMap item.weather0.icon
              description := some item.weather0.description
              precipitation := (jsRound (item.pop * 100) : ℚ) }
  else v1

/-- Association-list read, modelling `daysMap[day]` on a JS object with
string keys in insertion order. -/
def findA (m : List (String × DailyWeatherData)) (k : String) : Option DailyWeatherData :=
  match m with
  | [] => none
  | (k', v) :: rest => if k' = k then some v else findA rest k

/-- In-place update of the (first) entry with the given key, preserving
insertion order, modelling `daysMap[day] = ...` on an existing key. -/
def updA (k : String) (f : DailyWeatherData → DailyWeatherData) :
    List (String × DailyWeatherData) → List (String × DailyWeatherData)
  | [] => []
  | (k', v) :: rest => if k' = k then (k', f v) :: rest else (k', v) :: updA k f rest

/-- One step of the `apiData.list.forEach` day-bucketing fold. -/
def insertDay (denv : DateEnv) (m : List (String × DailyWeatherData))
    (item : ForecastItem) : List (String × DailyWeatherData) :=
  let day := denv.dayOf item.dt
  match findA m day with
  | none => m ++ [(day, initDay denv day item)]
  | some _ => updA day (mergeDay item) m

/-- The complete `daysMap` built by `transformForecastData`: a fold of
`insertDay` over the forecast list, starting from the empty object. -/
def buildDaysMap (denv : DateEnv) (items : List ForecastItem) :
    List (String × DailyWeatherData) :=
  items.foldl (insertDay denv) []

/-- Reference fold of a single day bucket (used to state and prove the
aggregation lemmas): `none` for the empty bucket, otherwise the merge fold
seeded with the initial entry. -/
def bucketOut (denv : DateEnv) (d : String) :
    Option DailyWeatherData → List ForecastItem → Option DailyWeatherData
  | o, [] => o
  | none, it :: rest => bucketOut denv d (some (initDay denv d it)) rest
  | some v, it :: rest => bucketOut denv d (some (mergeDay it v)) rest

/-- `transformForecastData` of the API module: first 8 three-hour entries as
the hourly series, day-bucketed `daysMap` values truncated to 7 as the daily
series, the head entry as current conditions, city metadata as location.
Returns `none` when `list` is empty, in which case the source's
`apiData.list[0].main` access throws (and the caller's `catch` takes over). -/
def transformForecastData (denv : DateEnv) (apiData : ForecastApiResponse) :
    Option WeatherData :=
  match apiData.list with
  | [] => none
  | item0 :: _ =>
    some
      { current :=
          { temperature := (jsRound item0.main.temp : ℚ)
            condition := item0.weather0.main
            description := item0.weather0.description
            icon := iconMap item0.weather0.icon
            feelsLike := (jsRound item0.main.feels_like : ℚ)
            humidity := item0.main.humidity
            windSpeed := item0.wind.speed
            windDirection := some ""
            pressure := item0.main.pressure
            visibility :=
              match item0.visibility with
              | some v => if v = 0 then 10 else v / 1000
              | none => 10
            uvIndex := 0
            sunrise := denv.timeFmt apiData.city.sunrise
            sunset := denv.timeFmt apiData.city.sunset
            dewPoint := 0
            timestamp := some item0.dt }
        hourly := (apiData.list.take 8).map (hourlyOfItem denv)
        daily := ((buildDaysMap denv apiData.list).map Prod.snd).take 7
        location := some
          { name := apiData.city.name
            country := some apiData.city.country
            lat := some apiData.city.coord.lat
            lon := some apiData.city.coord.lon
            timezone := some (toString apiData.city.timezone) }
        lastUpdated := some denv.nowIso }

/-! ## Mock data generator (`src/lib/mockData.ts`) -/

/-- State fixed at module initialization time, when the `mockWeatherData`
constant is evaluated: the hour of the clock at import time, the stream of
`Math.random()` draws consumed during generation, and `dayVar h`, which
models the daytime temperature curve `Math.sin((h - 6) * Math.PI / 12) * 8`
(kept abstract because it is transcendental). -/
structure ModuleInit where
  currentHour : ℕ
  rand : ℕ → ℚ
  dayVar : ℕ → ℚ

/-- The fixed 12-element `weatherPatterns` cycle. -/
def weatherPatterns : List WeatherCondition :=
  [.sunny, .sunny, .cloudy, .cloudy, .rainy, .partlyCloudy,
   .sunny, .cloudy, .partlyCloudy, .rainy, .sunny, .cloudy]

/-- One iteration of the `generate24HourForecast` loop at index `i` with
random-stream counter `k`; returns the generated entry and the advanced
counter.  `setHours(currentHour + i)` followed by `getHours()` is
`(currentHour + i) % 24`. -/
def genEntry (m : ModuleInit) (i k : ℕ) : HourlyWeatherData × ℕ :=
  let hourInDay := (m.currentHour + i) % 24
  let timeString :=
    if i = 0 then "Now"
    else
      let isPM := decide (hourInDay ≥ 12)
      let displayHour :=
        if hourInDay = 0 then 12 else if hourInDay > 12 then hourInDay - 12 else hourInDay
      toString displayHour ++ " " ++ (if isPM then "PM" else "AM")
  let tv : ℚ × ℕ :=
    if 6 ≤ hourInDay ∧ hourInDay ≤ 18 then (m.dayVar hourInDay, k)
    else (-5 + m.rand k * 3, k + 1)
  let temperature := (jsRound (68 + tv.1 + (m.rand tv.2 - 0.5) * 4) : ℚ)
  let k2 := tv.2 + 1
  let widx : ℤ := (Int.ofNat i + jsFloor (m.rand k2 * 3)).tmod 12
  let icon : Option WeatherCondition :=
    if widx < 0 then none else weatherPatterns.get? widx.toNat
  let k3 := k2 + 1
  let pr : ℚ × ℕ :=
    match icon with
    | some .rainy => (60 + m.rand k3 * 30, k3 + 1)
    | some .cloudy => (m.rand k3 * 20, k3 + 1)
    | some .partlyCloudy => (m.rand k3 * 10, k3 + 1)
    | _ => (0, k3)
  let humidity := (jsRound (45 + m.rand pr.2 * 30 + pr.1 / 100 * 20) : ℚ)
  let k5 := pr.2 + 1
  let pressure := (jsRound (1010 + m.rand k5 * 15) : ℚ)
  let k6 := k5 + 1
  let windSpeed := (jsRound (5 + m.rand k6 * 10) : ℚ)
  ({ time := timeString
     temperature := temperature
     icon := icon
     precipitation := (jsRound pr.1 : ℚ)
     humidity := humidity
     pressure := pressure
     windSpeed := some windSpeed
     feelsLike := none }, k6 + 1)

/-- The `for (let i = 0; i < 24; i++)` loop: `n` remaining iterations from
index `i` and counter `k`. -/
def genList (m : ModuleInit) (i k : ℕ) : ℕ → List HourlyWeatherData
  | 0 => []
  | n + 1 =>
    let ek := genEntry m i k
    ek.1 :: genList m (i + 1) ek.2 n

/-- `generate24HourForecast` of `src/lib/mockData.ts`. -/
def generate24HourForecast (m : ModuleInit) : List HourlyWeatherData :=
  genList m 0 0 24

/-- The `mockWeatherData` module constant of `src/lib/mockData.ts`,
parameterized by the module-initialization state `m` (clock hour and random
draws at import time). -/
def mockWeatherData (m : ModuleInit) : WeatherData :=
  { current :=
      { temperature := 68
        condition := "partly cloudy"
        description := "partly cloudy with a chance of sunshine"
        icon := .partlyCloudy
        feelsLike := 72
        humidity := 65
        windSpeed := 8
        pressure := 1013
        visibility := 10
        uvIndex := 5
        sunrise := "6:42 AM"
        sunset := "7:18 PM"
        windDirection := some "NW"
        dewPoint := 58
        timestamp := none }
    hourly := generate24HourForecast m
    daily :=
      [ { day := "Today", high := 78, low := 55, icon := .rainy, precipitation := 60,
          date := none, humidity := none, windSpeed := none, description := none },
        { day := "Tue", high := 82, low := 58, icon := .sunny, precipitation := 0,
          date := none, humidity := none, windSpeed := none, description := none },
        { day := "Wed", high := 79, low := 56, icon := .cloudy, precipitation := 20,
          date := none, humidity := none, windSpeed := none, description := none },
        { day := "Thu", high := 75, low := 52, icon := .rainy, precipitation := 80,
          date := none, humidity := none, windSpeed := none, description := none },
        { day := "Fri", high := 71, low := 48, icon := .rainy, precipitation := 90,
          date := none, humidity := none, windSpeed := none, description := none },
        { day := "Sat", high := 73, low := 50, icon := .cloudy, precipitation := 30,
          date := none, humidity := none, windSpeed := none, description := none },
        { day := "Sun", high := 77, low := 54, icon := .sunny, precipitation := 10,
          date := none, humidity := none, windSpeed := none, description := none } ]
    location := none
    lastUpdated := none }

/-- `getMockWeatherData` of the API module: returns the imported module
constant. -/
def getMockWeatherData (m : ModuleInit) : WeatherData := mockWeatherData m

/-! ## Weather services and the fetch pipeline -/

/-- `weatherService.getCurrentWeather`: issues the current-weather request;
on success transforms the payload, on failure the `catch` returns the mock
dataset. -/
def getCurrentWeather (m : ModuleInit) (denv : DateEnv) (env : Env) (lat lon : ℚ) :
    WeatherData × List Request :=
  match env.currentOutcome lat lon with
  | some data => (transformWeatherData denv data, [Request.currentW lat lon])
  | none => (getMockWeatherData m, [Request.currentW lat lon])

/-- `weatherService.getForecast`: issues the forecast request; on success
transforms the payload (a transform throw — empty `list` — is caught too),
on failure the `catch` returns the mock dataset. -/
def getForecast (m : ModuleInit) (denv : DateEnv) (env : Env) (lat lon : ℚ) :
    WeatherData × List Request :=
  match env.forecastOutcome lat lon with
  | some data =>
    match transformForecastData denv data with
    | some w => (w, [Request.forecast lat lon])
    | none => (getMockWeatherData m, [Request.forecast lat lon])
  | none => (getMockWeatherData m, [Request.forecast lat lon])

/-- The configured-and-located branch of `fetchWeatherData`: fetch current
weather and forecast together (`Promise.all`) and merge as
`{ ...current, hourly: forecast.hourly, daily: forecast.daily }`. -/
def fetchConfigured (m : ModuleInit) (denv : DateEnv) (env : Env) (lat lon : ℚ) :
    WeatherData × List Request :=
  let cw := getCurrentWeather m denv env lat lon
  let fc := getForecast m denv env lat lon
  ({ cw.1 with hourly := fc.1.hourly, daily := fc.1.daily }, cw.2 ++ fc.2)

/-- `fetchWeatherData` of `src/hooks/useWeather.ts`: resolve the optional
location string (empty string is falsy and skips resolution), then — only if
the API key is configured and both coordinates are truthy — fetch and merge
current+forecast; otherwise fall back to the mock dataset. -/
def fetchWeatherData (m : ModuleInit) (denv : DateEnv) (env : Env)
    (location : Option String) : WeatherData × List Request :=
  let pc : Option Coords × List Request :=
    match location with
    | none => (none, [])
    | some s => if s = "" then (none, []) else parseLocation env s
  match pc.1 with
  | some { lat := some la, lon := some lo } =>
    if env.apiKey ≠ "" ∧ la ≠ 0 ∧ lo ≠ 0 then
      let r := fetchConfigured m denv env la lo
      (r.1, pc.2 ++ r.2)
    else (mockWeatherData m, pc.2)
  | _ => (mockWeatherData m, pc.2)

/-! ## Concrete fixtures used by witnesses and counterexamples -/

/-- Concrete module-initialization state: import at midnight, every
`Math.random()` draw `1/2`, flat daytime curve. -/
def m0 : ModuleInit := { currentHour := 0, rand := fun _ => 1/2, dayVar := fun _ => 0 }

/-- Concrete clock/locale environment. -/
def denv0 : DateEnv :=
  { timeFmt := fun _ => "12:00"
    dayOf := fun _ => "Mon"
    isoOf := fun _ => "1970-01-01T00:00:00.000Z"
    hourOf := fun _ => 3
    nowHour := 5
    nowIso := "now-iso" }

/-- Environment with no API key configured and every remote call failing. -/
def envNoKey : Env :=
  { apiKey := ""
    geoOutcome := fun _ => none
    currentOutcome := fun _ _ => none
    forecastOutcome := fun _ _ => none }

/-- Environment with a key configured but a failing geocoding backend. -/
def envGeoFail : Env :=
  { apiKey := "k"
    geoOutcome := fun _ => none
    currentOutcome := fun _ _ => none
    forecastOutcome := fun _ _ => none }

/-- A concrete successful current-weather payload (temperature 25). -/
def respC : OpenWeatherApiResponse :=
  { coord := { lat := 40, lon := -74 }
    weather0 := { main := "Clear", description := "clear sky", icon := "01d" }
    main := { temp := 25, feels_like := 24, temp_min := 20, temp_max := 30,
              pressure := 1000, humidity := 50 }
    visibility := some 10000
    wind := { speed := 3, deg := some 90 }
    dt := 1000
    sys := { country := "US", sunrise := 500, sunset := 600 }
    name := "NYC" }

/-- Environment where the current-weather request succeeds with `respC` and
the forecast request fails. -/
def envC1 : Env :=
  { apiKey := "k"
    geoOutcome := fun _ => none
    currentOutcome := fun _ _ => some respC
    forecastOutcome := fun _ _ => none }

/-- Forecast entry with precipitation probability 0.3 (rain icon). -/
def itPop3 : ForecastItem :=
  { dt := 0
    main := { temp := 10, feels_like := 10, temp_min := 5, temp_max := 12,
              pressure := 1000, humidity := 50 }
    weather0 := { main := "Rain", description := "light rain", icon := "10d" }
    wind := { speed := 2, deg := some 0 }
    visibility := some 10000
    pop := 0.3 }

/-- Forecast entry with precipitation probability 0.9 (clear icon), in the
same weekday bucket as `itPop3` under `denv0`. -/
def itPop9 : ForecastItem :=
  { dt := 7
    main := { temp := 11, feels_like := 11, temp_min := 4, temp_max := 13,
              pressure := 1001, humidity := 60 }
    weather0 := { main := "Clear", description := "clear sky", icon := "01d" }
    wind := { speed := 3, deg := some 0 }
    visibility := some 10000
    pop := 0.9 }

/-! # Helper lemmas -/

theorem wc_mem_conditionTags (c : WeatherCondition) : c ∈ conditionTags := by
  cases c <;> simp [conditionTags]

theorem lookup_eq_none_of_notMem {β : Type} (l : List (String × β)) (a : String)
    (h : a ∉ l.map Prod.fst) : l.lookup a = none := by
  induction l with
  | nil => rfl
  | cons p t ih =>
    simp only [List.map_cons, List.mem_cons] at h
    push_neg at h
    obtain ⟨k, v⟩ := p
    have hk : (a == k) = false := beq_eq_false_iff_ne.mpr (by simpa using h.1)
    simp [List.lookup_cons, hk, ih h.2]

/-! # C9: structure of the mock dataset -/

/-- C9: the mock weather dataset always has exactly 24 hourly entries and
exactly 7 daily entries, and the first hourly entry's time label is `"Now"`,
for every module-initialization state (clock hour, random draws, daytime
curve). -/
theorem C9_mock_structure (m : ModuleInit) :
    (mockWeatherData m).hourly.length = 24 ∧
    (mockWeatherData m).daily.length = 7 ∧
    ((mockWeatherData m).hourly.head?.map HourlyWeatherData.time) = some "Now" :=
  ⟨rfl, rfl, rfl⟩

/-! # C6: icon-code mapping -/

/-- C6: every code in the fixed 18-entry icon table maps to its documented
internal tag (day and night variants collapsing, e.g. `10d`/`10n` to rainy
and `01d`/`01n` to sunny), every code outside the table maps to sunny, and
every entry produced by the forecast transform carries one of the 8
recognized condition tags. -/
theorem C6_icon_mapping :
    (∀ p ∈ iconTable, iconMap p.1 = p.2) ∧
    (iconMap "10d" = .rainy ∧ iconMap "10n" = .rainy ∧
     iconMap "01d" = .sunny ∧ iconMap "01n" = .sunny) ∧
    (∀ code : String, code ∉ iconTable.map Prod.fst → iconMap code = .sunny) ∧
    (∀ denv apiData w, transformForecastData denv apiData = some w →
      (∀ e ∈ w.hourly, ∃ t ∈ conditionTags, e.icon = some t) ∧
      (∀ d ∈ w.daily, d.icon ∈ conditionTags)) := by
  refine ⟨by decide, by decide, ?_, ?_⟩
  · intro code h
    unfold iconMap
    rw [lookup_eq_none_of_notMem _ _ h]
    rfl
  · intro denv apiData w hw
    cases hl : apiData.list with
    | nil => rw [transformForecastData, hl] at hw; cases hw
    | cons i0 t =>
      rw [transformForecastData, hl] at hw
      injection hw with hw'
      subst hw'
      constructor
      · intro e he
        simp only [List.mem_map] at he
        obtain ⟨it, _, rfl⟩ := he
        exact ⟨iconMap it.weather0.icon, wc_mem_conditionTags _, rfl⟩
      · intro d _
        exact wc_mem_conditionTags _

/-- Witness for C6 at the out-of-table code `"99x"`. -/
theorem C6_icon_mapping_witness : iconMap "99x" = .sunny :=
  C6_icon_mapping.2.2.1 "99x" (by decide)

/-! # C7: wind-direction bucketing -/

/-- C7: the wind-direction computation maps 0° to `"N"`, 45° to `"NE"`,
180° to `"S"`, 360° to `"N"` (modulo wrap), and for every degree value in
`[0, 360]` it yields a defined element of the 16-entry compass table via
`round(degrees/22.5) mod 16`. -/
theorem C7_wind_direction :
    getWindDirection 0 = some "N" ∧
    getWindDirection 45 = some "NE" ∧
    getWindDirection 180 = some "S" ∧
    getWindDirection 360 = some "N" ∧
    ∀ d : ℚ, 0 ≤ d → d ≤ 360 →
      ∃ s, getWindDirection d = some s ∧ s ∈ windDirections := by
  refine ⟨by with_unfolding_all rfl, by with_unfolding_all rfl,
          by with_unfolding_all rfl, by with_unfolding_all rfl, ?_⟩
  intro d hd _
  simp only [getWindDirection]
  have ha0 : 0 ≤ jsRound (d / 22.5) := by
    unfold jsRound
    have h1 : ((0 : ℤ) : ℚ) ≤ d / 22.5 + 1 / 2 := by positivity
    exact Rat.le_floor.mpr h1
  have hm0 : 0 ≤ (jsRound (d / 22.5)).tmod 16 := Int.tmod_nonneg _ ha0
  have hmlt : (jsRound (d / 22.5)).tmod 16 < 16 :=
    Int.tmod_lt_of_pos _ (by norm_num)
  rw [if_neg (not_lt.mpr hm0)]
  have hlen : ((jsRound (d / 22.5)).tmod 16).toNat < windDirections.length := by
    simp only [windDirections, List.length]
    omega
  exact ⟨windDirections.get ⟨_, hlen⟩, List.get?_eq_get hlen, List.get_mem _ _ _⟩

/-- Witness for C7 at 100°. -/
theorem C7_wind_direction_witness :
    ∃ s, getWindDirection 100 = some s ∧ s ∈ windDirections :=
  C7_wind_direction.2.2.2.2 100 (by norm_num) (by norm_num)

/-! # C3: the daily-aggregation representative-entry rule -/

/-- C3 failing input: in a single weekday bucket holding entries with pop
0.3 (rainy icon, initializing the bucket) and then pop 0.9 (clear icon), the
produced bucket keeps the icon and description of the 0.3 entry, because the
code compares the candidate's raw `pop` (0–1) against the stored
`precipitation` percent (here 30), not against the represented entry's
`pop`; the entry with the strictly higher pop never overwrites. -/
theorem C3_pop_percent_mismatch :
    itPop3.pop < itPop9.pop ∧
    iconMap itPop3.weather0.icon = .rainy ∧
    iconMap itPop9.weather0.icon = .sunny ∧
    (findA (buildDaysMap denv0 [itPop3, itPop9]) "Mon").map DailyWeatherData.icon =
      some .rainy ∧
    (findA (buildDaysMap denv0 [itPop3, itPop9]) "Mon").map DailyWeatherData.description =
      some (some "light rain") ∧
    (findA (buildDaysMap denv0 [itPop3, itPop9]) "Mon").map DailyWeatherData.precipitation =
      some 30 := by
  with_unfolding_all decide

/-! # C8: location search degradation on failure -/

/-- C8 counterexample: with a failing geocoding backend, searching for
`"London"` does not return the empty result set — it returns the built-in
London mock suggestion. -/
theorem C8_search_failure_counterexample :
    (searchLocations envGeoFail "London" 5).1 ≠ [] ∧
    (searchLocations envGeoFail "London" 5).1.map LocationSuggestion.name = ["London"] := by
  refine ⟨?_, by with_unfolding_all rfl⟩
  intro h
  exact absurd (congrArg List.length h) (by with_unfolding_all decide)

/-- C8 amended: when the underlying geocoding request fails, the search
catches the failure internally and returns the built-in five-city mock list
filtered by case-insensitive substring match of the query (possibly
nonempty) instead of propagating the error. -/
theorem C8_search_failure_returns_mock (env : Env) (q : String) (lim : ℕ)
    (hq : q.data.all jsSpace = false) (hfail : env.geoOutcome q = none) :
    (searchLocations env q lim).1 = getMockLocationSuggestions q := by
  simp [searchLocations, hq, hfail]

/-- Witness for the amended C8 at the query `"Paris"`. -/
theorem C8_search_failure_returns_mock_witness :
    (searchLocations envGeoFail "Paris" 5).1 = getMockLocationSuggestions "Paris" :=
  C8_search_failure_returns_mock envGeoFail "Paris" 5 (by decide) rfl

/-! # Fetch-pipeline helper lemmas -/

theorem searchLocations_reqs_geocode (env : Env) (q : String) (lim : ℕ) :
    ∀ r ∈ (searchLocations env q lim).2, ∃ a b, r = Request.geocode a b := by
  unfold searchLocations
  split
  · simp
  · cases env.geoOutcome q <;> simp

theorem parseLocation_reqs_geocode (env : Env) (s : String) :
    ∀ r ∈ (parseLocation env s).2, ∃ a b, r = Request.geocode a b := by
  have hs := searchLocations_reqs_geocode env s 1
  unfold parseLocation
  split
  · simp
  · split
    · simp
    · rcases h : searchLocations env s 1 with ⟨res, reqs⟩
      rw [h] at hs
      cases res <;> simpa using hs

theorem fetch_mock_of_noKey (m : ModuleInit) (denv : DateEnv) (env : Env)
    (loc : Option String) (h : env.apiKey = "") :
    (fetchWeatherData m denv env loc).1 = mockWeatherData m := by
  unfold fetchWeatherData
  cases loc with
  | none => rfl
  | some s =>
    by_cases hs : s = ""
    · simp [hs]
    · rcases h2 : parseLocation env s with ⟨oc, reqs⟩
      rcases oc with _ | ⟨_ | la, _ | lo⟩ <;> simp [hs, h2, h]

theorem fetch_reqs_of_noKey (m : ModuleInit) (denv : DateEnv) (env : Env)
    (loc : Option String) (h : env.apiKey = "") :
    ∀ r ∈ (fetchWeatherData m denv env loc).2, ∃ a b, r = Request.geocode a b := by
  unfold fetchWeatherData
  cases loc with
  | none => simp
  | some s =>
    have hp := parseLocation_reqs_geocode env s
    by_cases hs : s = ""
    · simp [hs]
    · rcases h2 : parseLocation env s with ⟨oc, reqs⟩
      rw [h2] at hp
      rcases oc with _ | ⟨_ | la, _ | lo⟩ <;> simp [hs, h2, h] <;> exact fun r hr => hp r hr

theorem fetchConfigured_both_fail (m : ModuleInit) (denv : DateEnv) (env : Env)
    (la lo : ℚ) (h1 : env.currentOutcome la lo = none)
    (h2 : env.forecastOutcome la lo = none) :
    (fetchConfigured m denv env la lo).1 = mockWeatherData m := by
  simp [fetchConfigured, getCurrentWeather, getForecast, getMockWeatherData, h1, h2]

/-! # C1: no-partial-merge policy of the combined fetch -/

/-- C1 counterexample: with the current-weather request succeeding
(temperature 25) and the forecast request failing, the combined fetch does
not yield the full mock dataset — it merges the real current conditions with
the mock hourly/daily series. -/
theorem C1_partial_merge_counterexample :
    (fetchWeatherData m0 denv0 envC1 (some "1,2")).1.current.temperature = 25 ∧
    (mockWeatherData m0).current.temperature = 68 ∧
    (fetchWeatherData m0 denv0 envC1 (some "1,2")).1.hourly = (mockWeatherData m0).hourly ∧
    (fetchWeatherData m0 denv0 envC1 (some "1,2")).1.daily = (mockWeatherData m0).daily ∧
    (fetchWeatherData m0 denv0 envC1 (some "1,2")).1 ≠ mockWeatherData m0 := by
  refine ⟨by with_unfolding_all rfl, by with_unfolding_all rfl,
          by with_unfolding_all rfl, by with_unfolding_all rfl, ?_⟩
  intro h
  exact absurd (congrArg (fun w => w.current.temperature) h)
    (by with_unfolding_all decide)

/-- C1 amended: the two halves of the combined fetch fall back to mock data
independently inside the service layer rather than failing as a whole: if
the forecast fails, the result is the real current conditions merged with
the mock hourly/daily series; if the current-weather call fails, the result
is the mock current conditions merged with the real hourly/daily series; the
full mock dataset results only when both fail (or on the unconfigured/
unresolved path). -/
theorem C1_independent_fallback (m : ModuleInit) (denv : DateEnv) (env : Env) (la lo : ℚ) :
    (∀ resp, env.currentOutcome la lo = some resp → env.forecastOutcome la lo = none →
      (fetchConfigured m denv env la lo).1 =
        { transformWeatherData denv resp with
            hourly := (mockWeatherData m).hourly
            daily := (mockWeatherData m).daily }) ∧
    (∀ fresp w, env.currentOutcome la lo = none → env.forecastOutcome la lo = some fresp →
      transformForecastData denv fresp = some w →
      (fetchConfigured m denv env la lo).1 =
        { mockWeatherData m with hourly := w.hourly, daily := w.daily }) ∧
    (env.currentOutcome la lo = none → env.forecastOutcome la lo = none →
      (fetchConfigured m denv env la lo).1 = mockWeatherData m) := by
  refine ⟨?_, ?_, fetchConfigured_both_fail m denv env la lo⟩
  · intro resp hc hf
    simp [fetchConfigured, getCurrentWeather, getForecast, getMockWeatherData, hc, hf]
  · intro fresp w hc hf hw
    simp [fetchConfigured, getCurrentWeather, getForecast, getMockWeatherData, hc, hf, hw]

/-- Witness for the amended C1: current succeeds with `respC`, forecast
fails. -/
theorem C1_independent_fallback_witness :
    (fetchConfigured m0 denv0 envC1 1 2).1 =
      { transformWeatherData denv0 respC with
          hourly := (mockWeatherData m0).hourly
          daily := (mockWeatherData m0).daily } :=
  (C1_independent_fallback m0 denv0 envC1 1 2).1 respC rfl rfl

/-! # C2: behaviour when the API key is absent -/

/-- C2 counterexample: with no API key configured and the non-coordinate
location `"London"`, the fetch still issues a geocoding HTTP request (with
`limit` 1) before falling back to the mock dataset. -/
theorem C2_geocode_request_counterexample :
    (fetchWeatherData m0 denv0 envNoKey (some "London")).2 =
      [Request.geocode "London" 1] ∧
    (fetchWeatherData m0 denv0 envNoKey (some "London")).1 = mockWeatherData m0 := by
  exact ⟨by with_unfolding_all rfl, by with_unfolding_all rfl⟩

/-- C2 amended: when the API key is not configured the weather fetch always
returns the mock dataset and issues no current-weather or forecast request;
however, a geocoding request may still be issued (for a non-empty,
non-coordinate location string), so the fetch is not entirely request-free. -/
theorem C2_noKey_mock_only_geocode (m : ModuleInit) (denv : DateEnv) (env : Env)
    (loc : Option String) (h : env.apiKey = "") :
    (fetchWeatherData m denv env loc).1 = mockWeatherData m ∧
    ∀ r ∈ (fetchWeatherData m denv env loc).2, ∃ a b, r = Request.geocode a b :=
  ⟨fetch_mock_of_noKey m denv env loc h, fetch_reqs_of_noKey m denv env loc h⟩

/-- Witness for the amended C2 at the location `"Paris"`. -/
theorem C2_noKey_mock_only_geocode_witness :
    (fetchWeatherData m0 denv0 envNoKey (some "Paris")).1 = mockWeatherData m0 ∧
    ∀ r ∈ (fetchWeatherData m0 denv0 envNoKey (some "Paris")).2,
      ∃ a b, r = Request.geocode a b :=
  C2_noKey_mock_only_geocode m0 denv0 envNoKey (some "Paris") rfl

/-! # C10: stability of the mock fallback -/

/-- C10: the mock dataset is fixed by the module-initialization state alone:
any two fallback fetches — regardless of clock environment, outcome oracles,
or location argument — return the identical `WeatherData` value (including
the same randomized 24-hour series), and the configured branch also returns
exactly that value when both remote calls fail. -/
theorem C10_mock_identity :
    (∀ (m : ModuleInit) (denv denv' : DateEnv) (env env' : Env)
       (loc loc' : Option String), env.apiKey = "" → env'.apiKey = "" →
      (fetchWeatherData m denv env loc).1 = (fetchWeatherData m denv' env' loc').1) ∧
    (∀ (m : ModuleInit) (denv : DateEnv) (env : Env) (la lo : ℚ),
      env.currentOutcome la lo = none → env.forecastOutcome la lo = none →
      (fetchConfigured m denv env la lo).1 = mockWeatherData m) := by
  constructor
  · intro m denv denv' env env' loc loc' h h'
    rw [fetch_mock_of_noKey m denv env loc h, fetch_mock_of_noKey m denv' env' loc' h']
  · intro m denv env la lo h1 h2
    exact fetchConfigured_both_fail m denv env la lo h1 h2

/-- Witness for C10: two fallback fetches with different clocks, oracles and
locations coincide. -/
theorem C10_mock_identity_witness :
    (fetchWeatherData m0 denv0 envNoKey none).1 =
      (fetchWeatherData m0
        { denv0 with nowHour := 23, nowIso := "other" } envNoKey (some "Tokyo")).1 :=
  C10_mock_identity.1 m0 denv0 { denv0 with nowHour := 23, nowIso := "other" }
    envNoKey envNoKey none (some "Tokyo") rfl rfl

/-! # C4: daily high/low aggregation lemmas -/

theorem mergeDay_high (it : ForecastItem) (v : DailyWeatherData) :
    (mergeDay it v).high = max v.high it.main.temp_max := by
  simp only [mergeDay]
  split <;> rfl

theorem mergeDay_low (it : ForecastItem) (v : DailyWeatherData) :
    (mergeDay it v).low = min v.low it.main.temp_min := by
  simp only [mergeDay]
  split <;> rfl

theorem findA_append_ne {m : List (String × DailyWeatherData)} {k d : String}
    {v : DailyWeatherData} (h : k ≠ d) : findA (m ++ [(k, v)]) d = findA m d := by
  induction m with
  | nil => simp [findA, h]
  | cons p t ih =>
    obtain ⟨k', v'⟩ := p
    by_cases hk : k' = d <;> simp [findA, hk, ih]

theorem findA_append_self_of_none {m : List (String × DailyWeatherData)} {k : String}
    {v : DailyWeatherData} (h : findA m k = none) : findA (m ++ [(k, v)]) k = some v := by
  induction m with
  | nil => simp [findA]
  | cons p t ih =>
    obtain ⟨k', v'⟩ := p
    by_cases hk : k' = k
    · simp [findA, hk] at h
    · simp [findA, hk] at h ⊢
      exact ih h

theorem findA_updA_self {m : List (String × DailyWeatherData)} {d : String}
    {f : DailyWeatherData → DailyWeatherData} :
    findA (updA d f m) d = (findA m d).map f := by
  induction m with
  | nil => rfl
  | cons p t ih =>
    obtain ⟨k', v'⟩ := p
    by_cases hk : k' = d <;> simp [findA, updA, hk, ih]

theorem findA_updA_ne {m : List (String × DailyWeatherData)} {k d : String}
    {f : DailyWeatherData → DailyWeatherData} (h : k ≠ d) :
    findA (updA k f m) d = findA m d := by
  have hdk : d ≠ k := Ne.symm h
  induction m with
  | nil => rfl
  | cons p t ih =>
    obtain ⟨k', v'⟩ := p
    by_cases hk : k' = k
    · subst hk
      simp [findA, updA, h]
    · by_cases hd : k' = d <;> simp [findA, updA, hk, hd, ih, hdk]

theorem findA_insertDay (denv : DateEnv) (m : List (String × DailyWeatherData))
    (it : ForecastItem) (d : String) :
    findA (insertDay denv m it) d =
      if denv.dayOf it.dt = d then
        some (match findA m d with
              | none => initDay denv d it
              | some v => mergeDay it v)
      else findA m d := by
  simp only [insertDay]
  by_cases hd : denv.dayOf it.dt = d
  · rw [hd, if_pos rfl]
    cases hm : findA m d with
    | none => exact findA_append_self_of_none hm
    | some v =>
      rw [findA_updA_self, hm]
      rfl
  · rw [if_neg hd]
    cases hm : findA m (denv.dayOf it.dt) with
    | none => exact findA_append_ne hd
    | some v => exact findA_updA_ne hd

theorem foldl_insertDay_findA (denv : DateEnv) (items : List ForecastItem) :
    ∀ (m : List (String × DailyWeatherData)) (d : String),
      findA (items.foldl (insertDay denv) m) d =
        bucketOut denv d (findA m d)
          (items.filter (fun it => denv.dayOf it.dt == d)) := by
  induction items with
  | nil =>
    intro m d
    simp only [List.foldl_nil, List.filter_nil]
    cases h : findA m d <;> rfl
  | cons it rest ih =>
    intro m d
    rw [List.foldl_cons, ih, findA_insertDay, List.filter_cons]
    by_cases hd : denv.dayOf it.dt = d
    · rw [if_pos hd, if_pos (by simpa using hd)]
      cases hm : findA m d <;> simp [bucketOut]
    · rw [if_neg hd, if_neg (by simpa using hd)]

theorem bucketOut_some_foldl (denv : DateEnv) (d : String) (l : List ForecastItem) :
    ∀ v0, bucketOut denv d (some v0) l =
      some (l.foldl (fun v it => mergeDay it v) v0) := by
  induction l with
  | nil => intro v0; rfl
  | cons it rest ih => intro v0; rw [List.foldl_cons]; exact ih (mergeDay it v0)

theorem foldl_mergeDay_high (l : List ForecastItem) :
    ∀ v0 : DailyWeatherData,
      ((l.foldl (fun v it => mergeDay it v) v0).high = v0.high ∨
        (l.foldl (fun v it => mergeDay it v) v0).high ∈
          l.map (fun it => it.main.temp_max)) ∧
      v0.high ≤ (l.foldl (fun v it => mergeDay it v) v0).high ∧
      ∀ x ∈ l.map (fun it => it.main.temp_max),
        x ≤ (l.foldl (fun v it => mergeDay it v) v0).high := by
  induction l with
  | nil => intro v0; exact ⟨Or.inl rfl, le_refl _, by simp⟩
  | cons it rest ih =>
    intro v0
    rw [List.foldl_cons]
    obtain ⟨hmem, hle, hub⟩ := ih (mergeDay it v0)
    refine ⟨?_, ?_, ?_⟩
    · rcases hmem with hl | hr
      · rw [hl, mergeDay_high]
        rcases max_choice v0.high it.main.temp_max with h | h
        · exact Or.inl h
        · exact Or.inr (by simp [h])
      · exact Or.inr (by simp [hr])
    · calc v0.high ≤ (mergeDay it v0).high := by rw [mergeDay_high]; exact le_max_left _ _
        _ ≤ _ := hle
    · intro x hx
      rw [List.map_cons] at hx
      rcases List.mem_cons.mp hx with hx1 | hx2
      · calc x = it.main.temp_max := hx1
          _ ≤ (mergeDay it v0).high := by rw [mergeDay_high]; exact le_max_right _ _
          _ ≤ _ := hle
      · exact hub x hx2

theorem foldl_mergeDay_low (l : List ForecastItem) :
    ∀ v0 : DailyWeatherData,
      ((l.foldl (fun v it => mergeDay it v) v0).low = v0.low ∨
        (l.foldl (fun v it => mergeDay it v) v0).low ∈
          l.map (fun it => it.main.temp_min)) ∧
      (l.foldl (fun v it => mergeDay it v) v0).low ≤ v0.low ∧
      ∀ x ∈ l.map (fun it => it.main.temp_min),
        (l.foldl (fun v it => mergeDay it v) v0).low ≤ x := by
  induction l with
  | nil => intro v0; exact ⟨Or.inl rfl, le_refl _, by simp⟩
  | cons it rest ih =>
    intro v0
    rw [List.foldl_cons]
    obtain ⟨hmem, hle, hlb⟩ := ih (mergeDay it v0)
    refine ⟨?_, ?_, ?_⟩
    · rcases hmem with hl | hr
      · rw [hl, mergeDay_low]
        rcases min_choice v0.low it.main.temp_min with h | h
        · exact Or.inl h
        · exact Or.inr (by simp [h])
      · exact Or.inr (by simp [hr])
    · calc (rest.foldl (fun v it => mergeDay it v) (mergeDay it v0)).low
          ≤ (mergeDay it v0).low := hle
        _ ≤ v0.low := by rw [mergeDay_low]; exact min_le_left _ _
    · intro x hx
      rw [List.map_cons] at hx
      rcases List.mem_cons.mp hx with hx1 | hx2
      · calc (rest.foldl (fun v it => mergeDay it v) (mergeDay it v0)).low
            ≤ (mergeDay it v0).low := hle
          _ ≤ it.main.temp_min := by rw [mergeDay_low]; exact min_le_right _ _
          _ = x := hx1.symm
      · exact hlb x hx2

/-- C4: for every weekday bucket of the daily aggregation, the produced
`high` is the maximum of all `temp_max` values of the bucket's entries and
the produced `low` is the minimum of all `temp_min` values (stated as
membership plus upper/lower bound), regardless of the entry order and of the
icon tie-break. -/
theorem C4_daily_high_low (denv : DateEnv) (items : List ForecastItem) (d : String)
    (v : DailyWeatherData) (h : findA (buildDaysMap denv items) d = some v) :
    (v.high ∈ (items.filter (fun it => denv.dayOf it.dt == d)).map
        (fun it => it.main.temp_max) ∧
      ∀ x ∈ (items.filter (fun it => denv.dayOf it.dt == d)).map
        (fun it => it.main.temp_max), x ≤ v.high) ∧
    (v.low ∈ (items.filter (fun it => denv.dayOf it.dt == d)).map
        (fun it => it.main.temp_min) ∧
      ∀ x ∈ (items.filter (fun it => denv.dayOf it.dt == d)).map
        (fun it => it.main.temp_min), v.low ≤ x) := by
  rw [buildDaysMap, foldl_insertDay_findA] at h
  cases hb : items.filter (fun it => denv.dayOf it.dt == d) with
  | nil => rw [hb] at h; cases h
  | cons it0 rest =>
    rw [hb] at h
    simp only [findA] at h
    rw [show bucketOut denv d none (it0 :: rest) =
          bucketOut denv d (some (initDay denv d it0)) rest from rfl,
        bucketOut_some_foldl] at h
    injection h with h'
    obtain ⟨hh, hhl, hhu⟩ := foldl_mergeDay_high rest (initDay denv d it0)
    obtain ⟨hl, hll, hlb⟩ := foldl_mergeDay_low rest (initDay denv d it0)
    subst h'
    constructor
    · constructor
      · rcases hh with h1 | h2
        · rw [h1]; simp [initDay]
        · simp only [List.map_cons, List.mem_cons]
          exact Or.inr h2
      · intro x hx
        rw [List.map_cons] at hx
        rcases List.mem_cons.mp hx with hx1 | hx2
        · calc x = (initDay denv d it0).high := by rw [hx1]; rfl
            _ ≤ _ := hhl
        · exact hhu x hx2
    · constructor
      · rcases hl with h1 | h2
        · rw [h1]; simp [initDay]
        · simp only [List.map_cons, List.mem_cons]
          exact Or.inr h2
      · intro x hx
        rw [List.map_cons] at hx
        rcases List.mem_cons.mp hx with hx1 | hx2
        · calc _ ≤ (initDay denv d it0).low := hll
            _ = x := by rw [hx1]; rfl
        · exact hlb x hx2

/-- Witness for C4 on the two-entry bucket `[itPop3, itPop9]` of day
`"Mon"`: the produced high 13 is the max of the temp_max values. -/
theorem C4_daily_high_low_witness :
    (13 : ℚ) ∈ ([itPop3, itPop9].filter
        (fun it => denv0.dayOf it.dt == "Mon")).map (fun it => it.main.temp_max) ∧
    ∀ x ∈ ([itPop3, itPop9].filter
        (fun it => denv0.dayOf it.dt == "Mon")).map (fun it => it.main.temp_max),
      x ≤ (13 : ℚ) :=
  (C4_daily_high_low denv0 [itPop3, itPop9] "Mon"
    { day := "Mon", date := some "1970-01-01T00:00:00.000Z", high := 13, low := 4,
      icon := .rainy, precipitation := 30, humidity := some 50, windSpeed := some 2,
      description := some "light rain" }
    (by with_unfolding_all rfl)).1

/-! # C5: coordinate-pattern parsing lemmas -/

theorem jsDigit_not_space {c : Char} (h : jsDigit c = true) : jsSpace c = false := by
  simp only [jsDigit, Bool.and_eq_true, decide_eq_true_eq] at h
  simp only [jsSpace, Bool.or_eq_false_iff, beq_eq_false_iff_ne, Ne,
    Bool.and_eq_false_iff, decide_eq_false_iff_not]
  omega

theorem takeWhile_append_of_stop {p : Char → Bool} (xs : List Char) {y : Char}
    (ys : List Char) (hxs : ∀ x ∈ xs, p x = true) (hy : p y = false) :
    (xs ++ y :: ys).takeWhile p = xs ∧ (xs ++ y :: ys).dropWhile p = y :: ys := by
  induction xs with
  | nil => simp [List.takeWhile_cons, List.dropWhile_cons, hy]
  | cons a t ih =>
    have ha : p a = true := hxs a (by simp)
    have iht := ih (fun x hx => hxs x (by simp [hx]))
    simp [List.takeWhile_cons, List.dropWhile_cons, ha, iht.1, iht.2]

theorem eatNumCore_sound {s1 c r : List Char} (h : eatNumCore s1 = some (c, r)) :
    s1 = c ++ r ∧ PosShape c := by
  have hsplit : s1.takeWhile jsDigit ++ s1.dropWhile jsDigit = s1 :=
    List.takeWhile_append_dropWhile _ _
  have hall : ∀ x ∈ s1.takeWhile jsDigit, jsDigit x = true :=
    fun x hx => List.mem_takeWhile_imp hx
  simp only [eatNumCore] at h
  split at h
  · cases h
  · rename_i hds
    split at h
    · rename_i hd2
      simp only [Option.some.injEq, Prod.mk.injEq] at h
      obtain ⟨hc, hr⟩ := h
      constructor
      · calc s1 = s1.takeWhile jsDigit ++ s1.dropWhile jsDigit := hsplit.symm
          _ = s1.takeWhile jsDigit ++ [] := by rw [hd2]
          _ = c ++ r := by rw [hc, ← hr]
      · exact ⟨s1.takeWhile jsDigit, hds, hall, Or.inl hc.symm⟩
    · rename_i c2 s3 hd2
      split at h
      · rename_i hc2
        split at h
        · cases h
        · rename_i hfs
          simp only [Option.some.injEq, Prod.mk.injEq] at h
          obtain ⟨hc, hr⟩ := h
          subst hc2
          constructor
          · calc s1 = s1.takeWhile jsDigit ++ s1.dropWhile jsDigit := hsplit.symm
              _ = s1.takeWhile jsDigit ++ ('.' :: s3) := by rw [hd2]
              _ = s1.takeWhile jsDigit ++
                    ('.' :: (s3.takeWhile jsDigit ++ s3.dropWhile jsDigit)) := by
                  rw [List.takeWhile_append_dropWhile]
              _ = (s1.takeWhile jsDigit ++ '.' :: s3.takeWhile jsDigit) ++
                    s3.dropWhile jsDigit := by simp
              _ = c ++ r := by rw [hc, hr]
          · exact ⟨s1.takeWhile jsDigit, hds, hall,
              Or.inr ⟨s3.takeWhile jsDigit, hfs,
                fun x hx => List.mem_takeWhile_imp hx, hc.symm⟩⟩
      · rename_i hc2
        simp only [Option.some.injEq, Prod.mk.injEq] at h
        obtain ⟨hc, hr⟩ := h
        constructor
        · calc s1 = s1.takeWhile jsDigit ++ s1.dropWhile jsDigit := hsplit.symm
            _ = s1.takeWhile jsDigit ++ (c2 :: s3) := by rw [hd2]
            _ = c ++ r := by rw [hc, hr]
        · exact ⟨s1.takeWhile jsDigit, hds, hall, Or.inl hc.symm⟩

theorem eatNum_sound {s c r : List Char} (h : eatNum s = some (c, r)) :
    s = c ++ r ∧ NumShape c := by
  cases s with
  | nil => cases h
  | cons c0 s1 =>
    simp only [eatNum] at h
    split at h
    · rename_i hc0
      cases he : eatNumCore s1 with
      | none => rw [he] at h; cases h
      | some p =>
        obtain ⟨c1, r1⟩ := p
        rw [he] at h
        simp only [Option.map_some', Option.some.injEq, Prod.mk.injEq] at h
        obtain ⟨hc, hr⟩ := h
        obtain ⟨hs, hshape⟩ := eatNumCore_sound he
        subst hc0
        constructor
        · rw [← hc, ← hr, List.cons_append, hs]
        · exact Or.inr ⟨c1, hc.symm, hshape⟩
    · obtain ⟨hs, hshape⟩ := eatNumCore_sound h
      exact ⟨hs, Or.inl hshape⟩

theorem matchCoord_decomp {s : List Char} (h : matchCoordList s = true) :
    ∃ a w1 w2 b, s = a ++ (w1 ++ ',' :: (w2 ++ b)) ∧ NumShape a ∧
      (∀ x ∈ w1, jsSpace x = true) ∧ (∀ x ∈ w2, jsSpace x = true) ∧ NumShape b := by
  unfold matchCoordList at h
  split at h
  · cases h
  · rename_i p a r1 heq1
    split at h
    · cases h
    · rename_i c r3 heq2
      split at h
      · rename_i hc
        split at h
        · rename_i q b r5 heq3
          subst hc
          have hr5 : r5 = [] := List.isEmpty_iff.mp h
          subst hr5
          obtain ⟨hs1, ha⟩ := eatNum_sound heq1
          obtain ⟨hs3, hb⟩ := eatNum_sound heq3
          rw [List.append_nil] at hs3
          refine ⟨a, r1.takeWhile jsSpace, r3.takeWhile jsSpace, b, ?_, ha,
            fun x hx => List.mem_takeWhile_imp hx,
            fun x hx => List.mem_takeWhile_imp hx, hb⟩
          calc s = a ++ r1 := hs1
            _ = a ++ (r1.takeWhile jsSpace ++ r1.dropWhile jsSpace) := by
                rw [List.takeWhile_append_dropWhile]
            _ = a ++ (r1.takeWhile jsSpace ++ ',' :: r3) := by rw [heq2]
            _ = a ++ (r1.takeWhile jsSpace ++ ',' ::
                  (r3.takeWhile jsSpace ++ r3.dropWhile jsSpace)) := by
                rw [List.takeWhile_append_dropWhile]
            _ = a ++ (r1.takeWhile jsSpace ++ ',' ::
                  (r3.takeWhile jsSpace ++ b)) := by rw [hs3]
        · cases h
      · cases h

theorem posShape_head_digit {a : List Char} (h : PosShape a) :
    ∃ c r, a = c :: r ∧ jsDigit c = true := by
  obtain ⟨ds, hne, hall, hrest⟩ := h
  cases ds with
  | nil => exact absurd rfl hne
  | cons d t =>
    have hd : jsDigit d = true := hall d (by simp)
    rcases hrest with hda | ⟨fs, _, _, hda⟩
    · exact ⟨d, t, hda, hd⟩
    · exact ⟨d, t ++ '.' :: fs, hda, hd⟩

theorem numShape_head_notspace {a : List Char} (h : NumShape a) :
    ∃ c r, a = c :: r ∧ jsSpace c = false := by
  rcases h with hp | ⟨c', rfl, _⟩
  · obtain ⟨c, r, ha, hd⟩ := posShape_head_digit hp
    exact ⟨c, r, ha, jsDigit_not_space hd⟩
  · exact ⟨'-', c', rfl, by decide⟩

theorem posShape_revhead {a : List Char} (h : PosShape a) :
    ∃ c r, a.reverse = c :: r ∧ jsDigit c = true := by
  obtain ⟨ds, hne, hall, hrest⟩ := h
  rcases hrest with hda | ⟨fs, hfne, hfall, hda⟩
  · rcases List.eq_nil_or_concat ds with rfl | ⟨L, x, hds⟩
    · exact absurd rfl hne
    · refine ⟨x, L.reverse, ?_, hall x (by rw [hds]; simp [List.concat_eq_append])⟩
      rw [hda, hds]
      simp [List.concat_eq_append]
  · rcases List.eq_nil_or_concat fs with rfl | ⟨L, x, hfs⟩
    · exact absurd rfl hfne
    · refine ⟨x, L.reverse ++ '.' :: ds.reverse, ?_,
        hfall x (by rw [hfs]; simp [List.concat_eq_append])⟩
      rw [hda, hfs]
      simp [List.concat_eq_append]

theorem numShape_revhead {a : List Char} (h : NumShape a) :
    ∃ c r, a.reverse = c :: r ∧ jsDigit c = true := by
  rcases h with hp | ⟨c', rfl, hp⟩
  · exact posShape_revhead hp
  · obtain ⟨c, r, hr, hd⟩ := posShape_revhead hp
    exact ⟨c, r ++ ['-'], by simp [hr], hd⟩

theorem jsStrTrim_sandwich {u a v : List Char}
    (hu : ∀ x ∈ u, jsSpace x = true) (hv : ∀ x ∈ v, jsSpace x = true)
    (h : NumShape a) : jsStrTrim (u ++ (a ++ v)) = a := by
  unfold jsStrTrim
  rw [List.dropWhile_append_of_pos hu]
  obtain ⟨c, r, ha, hns⟩ := numShape_head_notspace h
  have h1 : List.dropWhile jsSpace (a ++ v) = a ++ v := by
    rw [ha, List.cons_append, List.dropWhile_cons, hns]
    simp
  rw [h1, List.reverse_append,
    List.dropWhile_append_of_pos (fun x hx => hv x (List.mem_reverse.mp hx))]
  obtain ⟨c2, r2, har, hd2⟩ := numShape_revhead h
  have h2 : List.dropWhile jsSpace a.reverse = a.reverse := by
    rw [har, List.dropWhile_cons, jsDigit_not_space hd2]
    simp
  rw [h2, List.reverse_reverse]

theorem jsNumTail_posShape (sgn : ℚ) {t1 : List Char} (h : PosShape t1) :
    jsNumTail sgn t1 = some (sgn * posVal t1) := by
  obtain ⟨ds, hne, hall, hrest⟩ := h
  rcases hrest with hda | ⟨fs, hfne, hfall, hda⟩
  · have ht : t1.takeWhile jsDigit = ds := by
      rw [hda]; exact List.takeWhile_eq_self_iff.mpr hall
    have hd : t1.dropWhile jsDigit = [] := by
      rw [hda]; exact List.dropWhile_eq_nil_iff.mpr hall
    simp only [jsNumTail, posVal, ht, hd]
    simp [hne]
  · have ht : t1.takeWhile jsDigit = ds := by
      rw [hda]; exact (takeWhile_append_of_stop ds fs hall (by decide)).1
    have hd : t1.dropWhile jsDigit = '.' :: fs := by
      rw [hda]; exact (takeWhile_append_of_stop ds fs hall (by decide)).2
    have hft : fs.takeWhile jsDigit = fs := List.takeWhile_eq_self_iff.mpr hfall
    have hfd : fs.dropWhile jsDigit = [] := List.dropWhile_eq_nil_iff.mpr hfall
    simp only [jsNumTail, posVal, ht, hd]
    simp [hft, hfd, hne, hfne]

theorem jsNumber_sandwich {u a v : List Char}
    (hu : ∀ x ∈ u, jsSpace x = true) (hv : ∀ x ∈ v, jsSpace x = true)
    (h : NumShape a) : jsNumber (u ++ (a ++ v)) = some (numVal a) := by
  have ht := jsStrTrim_sandwich hu hv h
  simp only [jsNumber, ht]
  rcases h with hp | ⟨c', rfl, hp⟩
  · obtain ⟨c, r, rfl, hd⟩ := posShape_head_digit hp
    have hc1 : c ≠ '-' := fun he => by rw [he] at hd; exact absurd hd (by decide)
    have hc2 : c ≠ '+' := fun he => by rw [he] at hd; exact absurd hd (by decide)
    simp [hc1, hc2, jsNumTail_posShape 1 hp, numVal, one_mul]
  · simp [numVal, jsNumTail_posShape (-1) hp, neg_one_mul]

theorem posShape_no_comma {a : List Char} (h : PosShape a) : (',' : Char) ∉ a := by
  obtain ⟨ds, _, hall, hrest⟩ := h
  rcases hrest with hda | ⟨fs, _, hfall, hda⟩
  · rw [hda]
    exact fun hm => absurd (hall ',' hm) (by decide)
  · rw [hda]
    intro hm
    rcases List.mem_append.mp hm with h1 | h2
    · exact absurd (hall ',' h1) (by decide)
    · rcases List.mem_cons.mp h2 with h3 | h4
      · cases h3
      · exact absurd (hfall ',' h4) (by decide)

theorem numShape_no_comma {a : List Char} (h : NumShape a) : (',' : Char) ∉ a := by
  rcases h with hp | ⟨c', rfl, hp⟩
  · exact posShape_no_comma hp
  · intro hm
    rcases List.mem_cons.mp hm with h1 | h2
    · cases h1
    · exact posShape_no_comma hp h2

theorem wsAll_no_comma {w : List Char} (hw : ∀ x ∈ w, jsSpace x = true) :
    (',' : Char) ∉ w :=
  fun hm => absurd (hw ',' hm) (by decide)

theorem splitComma_no_comma {l : List Char} (h : (',' : Char) ∉ l) :
    splitComma l = [l] := by
  induction l with
  | nil => rfl
  | cons c t ih =>
    have hc : c ≠ ',' := fun he => h (by simp [he])
    have ht : (',' : Char) ∉ t := fun hm => h (by simp [hm])
    simp [splitComma, hc, ih ht]

theorem splitComma_append {xs ys : List Char} (h : (',' : Char) ∉ xs) :
    splitComma (xs ++ ',' :: ys) = xs :: splitComma ys := by
  induction xs with
  | nil => simp [splitComma]
  | cons c t ih =>
    have hc : c ≠ ',' := fun he => h (by simp [he])
    have ht : (',' : Char) ∉ t := fun hm => h (by simp [hm])
    rw [List.cons_append]
    simp [splitComma, hc, ih ht]

/-- C5: every input string accepted by the coordinate pattern
`^-?\d+(\.\d+)?\s*,\s*-?\d+(\.\d+)?$` decomposes as a signed decimal
numeral, optional whitespace, a comma, optional whitespace and a second
signed decimal numeral, and `parseLocation` parses it — in every
environment — directly into the mathematical values of those two numerals as
`{lat, lon}`, issuing no request (in particular no geocoding call). -/
theorem C5_coordinate_parse (s : String) (h : coordRegexTest s = true) :
    ∃ a w1 w2 b : List Char,
      s.data = a ++ (w1 ++ ',' :: (w2 ++ b)) ∧ NumShape a ∧
      (∀ x ∈ w1, jsSpace x = true) ∧ (∀ x ∈ w2, jsSpace x = true) ∧ NumShape b ∧
      ∀ env : Env, parseLocation env s =
        (some { lat := some (numVal a), lon := some (numVal b) }, []) := by
  obtain ⟨a, w1, w2, b, hs, ha, hw1, hw2, hb⟩ := matchCoord_decomp h
  refine ⟨a, w1, w2, b, hs, ha, hw1, hw2, hb, ?_⟩
  intro env
  have hne : s ≠ "" := by
    intro he
    rw [he] at h
    exact absurd h (by decide)
  unfold parseLocation
  rw [if_neg hne, if_pos h]
  have hsplit : splitComma s.data = [a ++ w1, w2 ++ b] := by
    rw [hs, show a ++ (w1 ++ ',' :: (w2 ++ b)) = (a ++ w1) ++ ',' :: (w2 ++ b) from by
      simp]
    rw [splitComma_append (by
      intro hm
      rcases List.mem_append.mp hm with h1 | h2
      · exact numShape_no_comma ha h1
      · exact wsAll_no_comma hw1 h2)]
    rw [splitComma_no_comma (by
      intro hm
      rcases List.mem_append.mp hm with h1 | h2
      · exact wsAll_no_comma hw2 h1
      · exact numShape_no_comma hb h2)]
  have h1 : jsNumber (a ++ w1) = some (numVal a) := by
    have := jsNumber_sandwich (List.forall_mem_nil _) hw1 ha
    simpa using this
  have h2 : jsNumber (w2 ++ b) = some (numVal b) := by
    have := jsNumber_sandwich hw2 (List.forall_mem_nil _) hb
    simpa using this
  rw [hsplit]
  simp [h1, h2]

/-- Witness for C5 at the input `"40.71,-74.01"`. -/
theorem C5_coordinate_parse_witness :
    ∃ a w1 w2 b : List Char,
      ("40.71,-74.01" : String).data = a ++ (w1 ++ ',' :: (w2 ++ b)) ∧ NumShape a ∧
      (∀ x ∈ w1, jsSpace x = true) ∧ (∀ x ∈ w2, jsSpace x = true) ∧ NumShape b ∧
      ∀ env : Env, parseLocation env "40.71,-74.01" =
        (some { lat := some (numVal a), lon := some (numVal b) }, []) :=
  C5_coordinate_parse "40.71,-74.01" (by decide)

/-- Witness for C9 at the concrete module-initialization state `m0`. -/
theorem C9_mock_structure_witness :
    (mockWeatherData m0).hourly.length = 24 ∧
    (mockWeatherData m0).daily.length = 7 ∧
    ((mockWeatherData m0).hourly.head?.map HourlyWeatherData.time) = some "Now" :=
  C9_mock_structure m0
